import Mathlib

/-
Verification of the InfiniteTalk Beam hub orchestration logic.

This file shallowly embeds the orchestration core of the repository:
the request validation, input materialization, workflow parameter
injection, execution monitoring loop of handler_logic.py, and the
submit/poll/download client loop of client_queue.py.  External effects
(HTTP, websocket, filesystem, audio decoding) are modelled by an
explicit environment of response functions, and each modelled function
additionally returns the ordered trace of externally visible actions it
performs, so that ordering claims (for example, a validation error is
returned before any network call) become statements about traces.
-/

namespace InfiniteTalk

/-- JSON-like scalar values appearing in a request mapping or in a
workflow node field.  `null` models the Python value None. -/
inductive Val where
  | str (s : String)
  | int (n : Int)
  | bool (b : Bool)
  | null
deriving DecidableEq

/-- A Python dict observed only through key lookup and insertion-ordered
iteration is modelled as an association list with distinct keys. -/
def alistLookup {α : Type} : List (String × α) → String → Option α
  | [], _ => none
  | (k', v) :: rest, k => if k' = k then some v else alistLookup rest k

/-- Keys of an association list, in iteration order. -/
def alistKeys {α : Type} (m : List (String × α)) : List String :=
  m.map Prod.fst



/-- Python's int() conversion truncates toward zero. -/
def pyTrunc (q : ℚ) : Int :=
  if 0 ≤ q then Int.floor q else -Int.floor (-q)

/-- A websocket frame as observed by the read loop of get_videos: either
a binary (non-string) frame, or a parsed JSON text message carrying a
type tag and, for executing events, the current node and the job id. -/
inductive WsMsg where
  | binary
  | text (ty : String) (node : Option String) (promptId : String)
deriving DecidableEq

/-- One output-bearing node record of the execution history: the list of
fullpath references under the gifs key, or no gifs key at all. -/
structure NodeOut where
  gifs : Option (List String)
deriving DecidableEq

/-- A workflow graph node: an optional class_type tag and an optional
field mapping under the inputs key (a node of the template may lack
either key). -/
structure Node where
  class_type : Option String
  inputs : Option (List (String × Val))
deriving DecidableEq

/-- A workflow graph: identifier-keyed mapping of nodes, in iteration
order. -/
abbrev Graph : Type := List (String × Node)

/-- The discriminated result of process_infinitetalk: a success dict
carrying the video (identified here by the artifact path selected for
encoding), a structured error dict, or an uncaught Python exception. -/
inductive Result where
  | ok (video : String)
  | err (msg : String)
  | exn (msg : String)
deriving DecidableEq

/-- Externally visible actions of the handler, recorded in order. -/
inductive Action where
  | netDownload (url : String)
  | writeFile (path : String)
  | netQueue
  | wsRecv
  | netHistory
  | connectAttempt (i : Nat)
  | sleep (secs : Nat)
deriving DecidableEq

/-- Actions that perform a network call. -/
def Action.isNetwork : Action → Bool
  | .netDownload _ => true
  | .netQueue => true
  | .netHistory => true
  | .connectAttempt _ => true
  | _ => false

/-- The environment abstracting every external effect the handler
performs: per-url download success, base64 decodability, file
existence, audio durations, the generated working-directory and client
identifiers, the workflow template on disk, per-attempt websocket
connection success, the prompt-queue response, the websocket event
stream, the execution-history response, and final encoding success. -/
structure Env where
  downloadOk : String → Bool
  decodeOk : String → Bool
  fileExists : String → Bool
  audioDuration : String → Option ℚ
  taskId : String
  clientId : String
  workflow : Graph
  connectOk : Nat → Bool
  queueOk : Bool
  promptId : String
  events : List WsMsg
  history : String → Option (List (String × NodeOut))
  encodeOk : String → Bool

/-- Embedding of get_audio_duration: librosa either reports a duration
in seconds or raises, in which case the function returns None. -/
def get_audio_duration (env : Env) (audio_path : String) : Option ℚ :=
  env.audioDuration audio_path

/-- Embedding of calculate_max_frames_from_audio: default 81 when the
duration is unavailable, otherwise int(duration * fps) + 81.  The fps
parameter defaults to 25 in the source and every call site uses that
default, so it is passed explicitly here. -/
def calculate_max_frames_from_audio (env : Env) (wav_path : String)
    (fps : ℚ) : Int :=
  match get_audio_duration env wav_path with
  | none => 81
  | some duration => pyTrunc (duration * fps) + 81

/-- Source forms of a media input, in the priority order the handler
checks them. -/
inductive SrcForm where
  | path
  | url
  | base64
deriving DecidableEq

/-- Selection of the media source actually used, mirroring the
if/elif/elif chains of process_infinitetalk lines 212-231: a path key
wins over a url key, which wins over a base64 key. -/
def selectSource (inputs : List (String × Val))
    (pathKey urlKey b64Key : String) : Option (SrcForm × Val) :=
  match alistLookup inputs pathKey with
  | some v => some (.path, v)
  | none =>
    match alistLookup inputs urlKey with
    | some v => some (.url, v)
    | none =>
      match alistLookup inputs b64Key with
      | some v => some (.base64, v)
      | none => none

/-- Embedding of process_input: a path input is passed through
unchanged, a url input is downloaded into the per-job working
directory, and a base64 input is decoded and written there.  Download
and decode failures raise in the source, so they escape here as
exception results; the trace records the network download or the file
write.  A non-string input value eventually raises a TypeError in the
source and is modelled as an immediate exception. -/
def process_input (env : Env) (v : Val) (output_filename : String)
    (form : SrcForm) : Except Result String × List Action :=
  match form, v with
  | .path, .str s => (.ok s, [])
  | .url, .str u =>
    if env.downloadOk u then
      (.ok (env.taskId ++ "/" ++ output_filename), [.netDownload u])
    else
      (.error (.exn ("Download error: " ++ u)), [.netDownload u])
  | .base64, .str b =>
    if env.decodeOk b then
      (.ok (env.taskId ++ "/" ++ output_filename),
        [.writeFile (env.taskId ++ "/" ++ output_filename)])
    else
      (.error (.exn "Base64 decode failed"), [])
  | _, _ => (.error (.exn "non-string input value"), [])

/-- The input_type request parameter with its default value image. -/
def inputTypeOf (inputs : List (String × Val)) : Val :=
  (alistLookup inputs "input_type").getD (.str "image")

/-- Embedding of the max_frame derivation of lines 239-241: the request
value when present and not None, else the audio-derived count.  A
request value of None behaves exactly like an absent key, because the
source tests the result of dict.get against None. -/
def deriveMaxFrame (inputs : List (String × Val)) (env : Env)
    (wav_path : String) : Val :=
  match alistLookup inputs "max_frame" with
  | some v =>
    if v = .null then .int (calculate_max_frames_from_audio env wav_path 25)
    else v
  | none => .int (calculate_max_frames_from_audio env wav_path 25)

/-- Fallback sampler search of lines 265-268: the first node in
iteration order whose class_type is WanVideoSampler. -/
def findSamplerFallback : Graph → Option String
  | [] => none
  | (node_id, node_data) :: rest =>
    if node_data.class_type = some "WanVideoSampler" then some node_id
    else findSamplerFallback rest

/-- Sampler-node selection of lines 257-268: the preferred identifier
128 is checked first; otherwise the first matching node in iteration
order wins. -/
def findSampler (g : Graph) : Option String :=
  match alistLookup g "128" with
  | some n =>
    if n.class_type = some "WanVideoSampler" then some "128"
    else findSamplerFallback g
  | none => findSamplerFallback g

/-- Python dict assignment: replace the value of an existing key in
place, else append the new key at the end of the iteration order. -/
def setField : List (String × Val) → String → Val → List (String × Val)
  | [], k, v => [(k, v)]
  | (k', v') :: rest, k, v =>
    if k' = k then (k, v) :: rest else (k', v') :: setField rest k v

/-- Update the node stored under an identifier, leaving every other
entry unchanged. -/
def updateNode (g : Graph) (nid : String) (f : Node → Node) : Graph :=
  g.map (fun p => if p.1 = nid then (p.1, f p.2) else p)

/-- Embedding of the force_offload injection of lines 271-277: when a
sampler node was found, setdefault materializes its inputs mapping and
force_offload is written into it; otherwise the graph is left untouched
and only a non-fatal warning is logged. -/
def injectForceOffload (g : Graph) (v : Val) : Graph :=
  match findSampler g with
  | none => g
  | some nid =>
    updateNode g nid (fun n =>
      { n with inputs := some (setField (n.inputs.getD []) "force_offload" v) })

/-- One workflow field write of lines 287-292: fails (KeyError) when
the node or its inputs mapping is absent. -/
def setNodeInput (g : Graph) (nid field : String) (v : Val) : Option Graph :=
  match alistLookup g nid with
  | none => none
  | some n =>
    match n.inputs with
    | none => none
    | some _ =>
      some (updateNode g nid (fun n' =>
        { n' with inputs := some (setField (n'.inputs.getD []) field v) }))

/-- The six fixed field writes of lines 287-292. -/
def configureNodes (g : Graph) (image_path wav_path : String)
    (promptText width height maxFrame : Val) : Option Graph := do
  let g1 ← setNodeInput g "284" "image" (.str image_path)
  let g2 ← setNodeInput g1 "125" "audio" (.str wav_path)
  let g3 ← setNodeInput g2 "241" "positive_prompt" promptText
  let g4 ← setNodeInput g3 "245" "value" width
  let g5 ← setNodeInput g4 "246" "value" height
  setNodeInput g5 "270" "value" maxFrame

/-- Embedding of the websocket connection loop of lines 298-309,
structured over the number of attempts remaining: a failed attempt
other than the last sleeps 5 seconds and retries; the last failed
attempt returns the timeout signal.  The source condition attempt ==
max_attempts - 1 is exactly remaining = 0 here.  Returns the index of
the successful attempt, or none when every attempt failed. -/
def wsConnectAux (ok : Nat → Bool) : Nat → Nat → Option Nat × List Action
  | _, 0 => (none, [])
  | attempt, remaining + 1 =>
    if ok attempt then (some attempt, [.connectAttempt attempt])
    else if remaining = 0 then (none, [.connectAttempt attempt])
    else
      let r := wsConnectAux ok (attempt + 1) remaining
      (r.1, .connectAttempt attempt :: .sleep 5 :: r.2)

/-- The connection loop started at attempt 0. -/
def wsConnectLoop (ok : Nat → Bool) (maxAttempts : Nat) :
    Option Nat × List Action :=
  wsConnectAux ok 0 maxAttempts

/-- Completion test of the read loop of get_videos: a string frame of
type executing whose data has node None and prompt_id equal to this
job id. -/
def isDoneMsg (prompt_id : String) : WsMsg → Bool
  | .text ty node pid => ty == "executing" && node.isNone && pid == prompt_id
  | .binary => false

/-- Embedding of the read loop of get_videos (lines 128-140): consume
frames until the first completion frame for this job id; returns the
number of frames consumed and the remaining stream, or none when the
finite stream is exhausted (the source would block or raise on the
closed socket). -/
def recvLoop (prompt_id : String) : List WsMsg → Option (Nat × List WsMsg)
  | [] => none
  | m :: rest =>
    if isDoneMsg prompt_id m then some (1, rest)
    else
      match recvLoop prompt_id rest with
      | none => none
      | some (n, r) => some (n + 1, r)

/-- Filter of existing files over the gif fullpath references of one
node output (lines 148-152). -/
def gatherExisting (env : Env) : List String → List String
  | [] => []
  | p :: rest =>
    if env.fileExists p then p :: gatherExisting env rest
    else gatherExisting env rest

/-- Artifact references collected for one node of the history: nothing
when the node output has no gifs key. -/
def collectNode (env : Env) (out : NodeOut) : List String :=
  match out.gifs with
  | none => []
  | some gs => gatherExisting env gs

/-- The per-node artifact collection loop of get_videos (lines
144-153), in history iteration order. -/
def collectVideos (env : Env) :
    List (String × NodeOut) → List (String × List String)
  | [] => []
  | (node_id, out) :: rest =>
    (node_id, collectNode env out) :: collectVideos env rest

/-- Embedding of get_videos: queue the prompt, drive the read loop to
the completion frame, then (and only then) fetch the execution history
and collect the artifact references per node. -/
def get_videos (env : Env) (_prompt : Graph) (_client_id : String) :
    Except Result (List (String × List String)) × List Action :=
  if env.queueOk then
    match recvLoop env.promptId env.events with
    | none =>
      (.error (.exn "websocket receive failed"),
        .netQueue :: List.replicate env.events.length .wsRecv)
    | some (n, _) =>
      match env.history env.promptId with
      | none =>
        (.error (.exn "history lookup failed"),
          .netQueue :: (List.replicate n .wsRecv ++ [.netHistory]))
      | some h =>
        (.ok (collectVideos env h),
          .netQueue :: (List.replicate n .wsRecv ++ [.netHistory]))
  else (.error (.exn "queue_prompt failed"), [.netQueue])

/-- The first-match output selection loop of process_infinitetalk
(lines 317-321). -/
def pickOutputVideo : List (String × List String) → Option String
  | [] => none
  | (_, vs) :: rest =>
    match vs with
    | [] => pickOutputVideo rest
    | v :: _ => some v

/-- The tail of process_infinitetalk after get_videos returns (lines
316-338).  The Python truthiness test on the selected path treats both
None and the empty string as no output found. -/
def finishVideos (env : Env) (videos : List (String × List String)) : Result :=
  match pickOutputVideo videos with
  | none => .err "No output video found"
  | some p =>
    if p = "" then .err "No output video found"
    else if env.fileExists p then
      if env.encodeOk p then .ok p else .err "Base64 encoding failed"
    else .err ("Output video file not found: " ++ p)

/-- Error message for a missing image input. -/
def imageRequiredMsg : String :=
  "Image input required (image_path, image_url, or image_base64)"

/-- Error message for a missing audio input. -/
def audioRequiredMsg : String :=
  "Audio input required (wav_path, wav_url, or wav_base64)"

/-- Error message of the unsupported input_type branch. -/
def unsupportedTypeMsg : String :=
  "Only input_type=\x27image\x27 is supported (I2V_single)"

/-- Error message of the exhausted websocket connection loop. -/
def connectTimeoutMsg : String :=
  "WebSocket connection timeout (3 minutes)"

/-- The execution phase of process_infinitetalk (lines 294-327): the
websocket connection loop, then get_videos and artifact selection. -/
def runWorkflow (env : Env) (g : Graph) : Result × List Action :=
  let c := wsConnectLoop env.connectOk 36
  match c.1 with
  | none => (.err connectTimeoutMsg, c.2)
  | some _ =>
    let gv := get_videos env g env.clientId
    match gv.1 with
    | .error r => (r, c.2 ++ gv.2)
    | .ok videos => (finishVideos env videos, c.2 ++ gv.2)

/-- Lines 233-327 of process_infinitetalk after both media inputs have
been materialized: parameter extraction, template load, force_offload
injection, file-existence validation, the six field writes, and the
execution phase. -/
def processParams (inputs : List (String × Val)) (env : Env)
    (image_path wav_path : String) : Result × List Action :=
  let promptText :=
    (alistLookup inputs "prompt").getD (.str "A person talking naturally")
  let width := (alistLookup inputs "width").getD (.int 512)
  let height := (alistLookup inputs "height").getD (.int 512)
  let maxFrame := deriveMaxFrame inputs env wav_path
  let g1 := injectForceOffload env.workflow
    ((alistLookup inputs "force_offload").getD (.bool true))
  if env.fileExists image_path then
    if env.fileExists wav_path then
      match configureNodes g1 image_path wav_path promptText width height
          maxFrame with
      | none => (.exn "KeyError: workflow node or inputs mapping missing", [])
      | some g2 => runWorkflow env g2
    else (.err ("Audio file not found: " ++ wav_path), [])
  else (.err ("Image file not found: " ++ image_path), [])

/-- Lines 211-327: the body of process_infinitetalk after the
input_type check. -/
def processImage (inputs : List (String × Val)) (env : Env) :
    Result × List Action :=
  match selectSource inputs "image_path" "image_url" "image_base64" with
  | none => (.err imageRequiredMsg, [])
  | some (form, v) =>
    let m := process_input env v "input_image.jpg" form
    match m.1 with
    | .error r => (r, m.2)
    | .ok image_path =>
      match selectSource inputs "wav_path" "wav_url" "wav_base64" with
      | none => (.err audioRequiredMsg, m.2)
      | some (wform, wv) =>
        let wm := process_input env wv "input_audio.wav" wform
        match wm.1 with
        | .error r => (r, m.2 ++ wm.2)
        | .ok wav_path =>
          let rest := processParams inputs env image_path wav_path
          (rest.1, m.2 ++ wm.2 ++ rest.2)

/-- Embedding of process_infinitetalk: the input_type gate, then the
materialization, injection and execution pipeline. -/
def process_infinitetalk (inputs : List (String × Val)) (env : Env) :
    Result × List Action :=
  if inputTypeOf inputs = .str "image" then processImage inputs env
  else (.err unsupportedTypeMsg, [])

/-- One server output record of the task status response of the client. -/
structure OutputRec where
  url : Option String
deriving DecidableEq

/-- Client-side environment: the outputs list of the final status
record and whether the artifact download succeeds. -/
structure ClientEnv where
  outputs : List OutputRec
  downloadOk : Bool

/-- Terminal statuses of the client polling loop. -/
def isTerminalStatus (s : String) : Bool :=
  s == "COMPLETED" || s == "COMPLETE" || s == "FAILED" || s == "CANCELED"

/-- The client polling loop of client_queue.py lines 161-181: the first
terminal status of the observed status stream, or none when the stream
never turns terminal (the loop keeps polling). -/
def firstTerminal : List String → Option String
  | [] => none
  | s :: rest => if isTerminalStatus s then some s else firstTerminal rest

/-- The exit phase of the client main after the polling loop (lines
185-226): returns the process exit code and whether an artifact
download request was performed.  On COMPLETED or COMPLETE the outputs
list is consulted and the artifact downloaded; the Python truthiness
test rejects a missing or empty url; a download failure raises and the
process exits 1.  Any other terminal status only prints a failure
message and falls off the end of main, so the process exits 0. -/
def clientFinish (env : ClientEnv) (status : String) : Nat × Bool :=
  if status == "COMPLETED" || status == "COMPLETE" then
    match env.outputs with
    | [] => (1, false)
    | o :: _ =>
      match o.url with
      | none => (1, false)
      | some u =>
        if u = "" then (1, false)
        else if env.downloadOk then (0, true) else (1, true)
  else (0, false)

/-- The client run over the observed poll statuses: none when the
stream never reaches a terminal status. -/
def clientRun (statuses : List String) (env : ClientEnv) :
    Option (Nat × Bool) :=
  (firstTerminal statuses).map (clientFinish env)

/-- Client-side actions of poll_task, recorded in order. -/
inductive CAction where
  | pollRequest (i : Nat)
  | sleepC (secs : Nat)
deriving DecidableEq

/-- Embedding of poll_task (client_queue.py lines 56-70): up to
remaining attempts starting at index attempt; a failing attempt other
than the last sleeps 2 seconds and retries; the failure of the last
attempt is re-raised.  With remaining = 0 the Python for loop body
never runs and the function falls through returning None, modelled as
an exhaustion error (unreachable at the call site, which always passes
retries = 5). -/
def pollTaskAux {J : Type} (resp : Nat → Except String J) :
    Nat → Nat → Except String J × List CAction
  | _, 0 => (.error "poll_task returned None", [])
  | attempt, remaining + 1 =>
    match resp attempt with
    | .ok v => (.ok v, [.pollRequest attempt])
    | .error e =>
      if remaining = 0 then (.error e, [.pollRequest attempt])
      else
        let r := pollTaskAux resp (attempt + 1) remaining
        (r.1, .pollRequest attempt :: .sleepC 2 :: r.2)

/-- poll_task with its default bound of 5 attempts. -/
def poll_task {J : Type} (resp : Nat → Except String J) :
    Except String J × List CAction :=
  pollTaskAux resp 0 5

/-- Expected trace of k failing poll attempts starting at index first,
each followed by the fixed 2 second backoff. -/
def pollFailTrace : Nat → Nat → List CAction
  | _, 0 => []
  | first, k + 1 =>
    .pollRequest first :: .sleepC 2 :: pollFailTrace (first + 1) k

/-- Expected trace of k failing connection attempts starting at index
first, each followed by the fixed 5 second backoff. -/
def connFailTrace : Nat → Nat → List Action
  | _, 0 => []
  | first, k + 1 =>
    .connectAttempt first :: .sleep 5 :: connFailTrace (first + 1) k

/-- A base environment for concrete evaluations: downloads and decodes
succeed, no file exists, audio durations are unavailable, connections
fail, the queue responds with job id p1, and the event stream is
empty. -/
def envBase : Env where
  downloadOk := fun _ => true
  decodeOk := fun _ => true
  fileExists := fun _ => false
  audioDuration := fun _ => none
  taskId := "task_x"
  clientId := "cid"
  workflow := []
  connectOk := fun _ => false
  queueOk := true
  promptId := "p1"
  events := []
  history := fun _ => none
  encodeOk := fun _ => true

/-- envBase with a determinable audio duration of 5/2 seconds. -/
def envDur : Env := { envBase with audioDuration := fun _ => some ((5 : ℚ) / 2) }

/-- envBase where exactly one artifact file exists on disk. -/
def envFiles : Env :=
  { envBase with fileExists := fun p => p == "/out/v2.mp4" }

/-- envFiles with a realistic monitoring scenario for job p1: the
connection succeeds on the third attempt, the stream holds a binary
frame, a status message, a non-null-node executing frame, a null-node
executing frame of another job, the completion frame, and one further
frame; the history of p1 holds one gif-less node and one node with two
artifact references. -/
def envEvents : Env :=
  { envFiles with
    connectOk := fun i => i == 2,
    events :=
      [.binary, .text "status" none "p1", .text "executing" (some "5") "p1",
       .text "executing" none "p2", .text "executing" none "p1",
       .text "executing" none "p1"],
    history := fun pid =>
      if pid == "p1" then
        some [("3", ⟨none⟩), ("8", ⟨some ["/out/v1.mp4", "/out/v2.mp4"]⟩)]
      else none }

theorem alistLookup_eq_some_of_mem {α : Type} {m : List (String × α)}
    {k : String} {v : α} (hnd : (alistKeys m).Nodup) (hm : (k, v) ∈ m) :
    alistLookup m k = some v := by
  induction m with
  | nil => cases hm
  | cons p rest ih =>
    obtain ⟨k', v'⟩ := p
    simp only [alistKeys, List.map_cons, List.nodup_cons] at hnd
    rcases List.mem_cons.mp hm with h | h
    · cases h
      simp [alistLookup]
    · have hk : k' ≠ k := by
        intro hkk
        apply hnd.1
        rw [hkk]
        exact List.mem_map.mpr ⟨(k, v), h, rfl⟩
      simp [alistLookup, hk, ih hnd.2 h]

theorem mem_of_alistLookup_eq_some {α : Type} {m : List (String × α)}
    {k : String} {v : α} (h : alistLookup m k = some v) : (k, v) ∈ m := by
  induction m with
  | nil => simp [alistLookup] at h
  | cons p rest ih =>
    obtain ⟨k', v'⟩ := p
    by_cases hk : k' = k
    · subst hk
      simp [alistLookup] at h
      simp [h]
    · simp [alistLookup, hk] at h
      exact List.mem_cons_of_mem _ (ih h)

theorem alistLookup_eq_none_iff {α : Type} (m : List (String × α))
    (k : String) : alistLookup m k = none ↔ k ∉ alistKeys m := by
  induction m with
  | nil => simp [alistLookup, alistKeys]
  | cons p rest ih =>
    obtain ⟨k', v'⟩ := p
    by_cases hk : k' = k
    · subst hk
      simp [alistLookup, alistKeys]
    · simp [alistLookup, alistKeys, hk, Ne.symm hk] at *
      exact ih

/-- Key lookup in a mapping with distinct keys does not depend on the
iteration order: any permutation of the entries gives the same result.
This justifies all of the order-independence claims below, because a
Python dict can never hold two entries with the same key. -/
theorem alistLookup_perm {α : Type} {m m' : List (String × α)}
    (hp : m.Perm m') (hnd : (alistKeys m).Nodup) (k : String) :
    alistLookup m k = alistLookup m' k := by
  have hnd' : (alistKeys m').Nodup := ((hp.map Prod.fst).nodup_iff).mp hnd
  cases h : alistLookup m k with
  | some v =>
    exact (alistLookup_eq_some_of_mem hnd'
      (hp.subset (mem_of_alistLookup_eq_some h))).symm
  | none =>
    have hk : k ∉ alistKeys m := (alistLookup_eq_none_iff m k).mp h
    have hk' : k ∉ alistKeys m' := by
      intro hmem
      exact hk (((hp.map Prod.fst).mem_iff).mpr hmem)
    exact ((alistLookup_eq_none_iff m' k).mpr hk').symm

theorem pyTrunc_eq_floor_of_nonneg {q : ℚ} (h : 0 ≤ q) :
    pyTrunc q = Int.floor q := by
  simp [pyTrunc, h]

theorem gatherExisting_eq_filter (env : Env) (l : List String) :
    gatherExisting env l = l.filter env.fileExists := by
  induction l with
  | nil => rfl
  | cons p rest ih =>
    by_cases h : env.fileExists p <;>
      simp [gatherExisting, List.filter_cons, h, ih]

theorem collectVideos_eq_map (env : Env) (h : List (String × NodeOut)) :
    collectVideos env h =
      h.map (fun p => (p.1, (p.2.gifs.getD []).filter env.fileExists)) := by
  induction h with
  | nil => rfl
  | cons p rest ih =>
    obtain ⟨nid, out⟩ := p
    cases hg : out.gifs with
    | none => simp [collectVideos, collectNode, hg, ih]
    | some gs =>
      simp [collectVideos, collectNode, hg, gatherExisting_eq_filter, ih]

theorem pickOutputVideo_eq_find (vs : List (String × List String)) :
    pickOutputVideo vs =
      (vs.find? (fun p => !p.2.isEmpty)).bind (fun p => p.2.head?) := by
  induction vs with
  | nil => rfl
  | cons p rest ih =>
    obtain ⟨nid, l⟩ := p
    cases l with
    | nil => simpa [pickOutputVideo, List.find?_cons] using ih
    | cons v t => simp [pickOutputVideo, List.find?_cons]

theorem pickOutputVideo_eq_none (vs : List (String × List String))
    (h : ∀ p ∈ vs, p.2 = []) : pickOutputVideo vs = none := by
  induction vs with
  | nil => rfl
  | cons p rest ih =>
    obtain ⟨nid, l⟩ := p
    have hl : l = [] := h (nid, l) (List.mem_cons_self _ _)
    subst hl
    exact ih (fun q hq => h q (List.mem_cons_of_mem _ hq))

theorem pickOutputVideo_mem (vs : List (String × List String)) (v : String)
    (h : pickOutputVideo vs = some v) : ∃ p ∈ vs, v ∈ p.2 := by
  induction vs with
  | nil => simp [pickOutputVideo] at h
  | cons p rest ih =>
    obtain ⟨nid, l⟩ := p
    cases l with
    | nil =>
      obtain ⟨q, hq, hv⟩ := ih h
      exact ⟨q, List.mem_cons_of_mem _ hq, hv⟩
    | cons w t =>
      have hw : w = v := by simpa [pickOutputVideo] using h
      subst hw
      exact ⟨(nid, w :: t), List.mem_cons_self _ _, List.mem_cons_self _ _⟩

theorem fileExists_of_mem_collect (env : Env) (h : List (String × NodeOut))
    {p : String × List String} (hp : p ∈ collectVideos env h) {v : String}
    (hv : v ∈ p.2) : env.fileExists v = true := by
  rw [collectVideos_eq_map] at hp
  obtain ⟨q, _, rfl⟩ := List.mem_map.mp hp
  exact List.of_mem_filter hv

theorem recvLoop_break_at_first (pid : String) (pre post : List WsMsg)
    (m : WsMsg) (hpre : ∀ x ∈ pre, isDoneMsg pid x = false)
    (hm : isDoneMsg pid m = true) :
    recvLoop pid (pre ++ m :: post) = some (pre.length + 1, post) := by
  induction pre with
  | nil => simp [recvLoop, hm]
  | cons x rest ih =>
    have hx : isDoneMsg pid x = false := hpre x (List.mem_cons_self _ _)
    have ih' := ih (fun y hy => hpre y (List.mem_cons_of_mem _ hy))
    simp [recvLoop, hx, ih']

theorem findSamplerFallback_first (pre rest : List (String × Node))
    (nid : String) (nd : Node)
    (hpre : ∀ x ∈ pre, x.2.class_type ≠ some "WanVideoSampler")
    (hnd : nd.class_type = some "WanVideoSampler") :
    findSamplerFallback (pre ++ (nid, nd) :: rest) = some nid := by
  induction pre with
  | nil => simp [findSamplerFallback, hnd]
  | cons x xs ih =>
    obtain ⟨a, b⟩ := x
    have hx : b.class_type ≠ some "WanVideoSampler" :=
      hpre (a, b) (List.mem_cons_self _ _)
    have ih' := ih (fun y hy => hpre y (List.mem_cons_of_mem _ hy))
    simp [findSamplerFallback, hx, ih']

theorem wsConnectAux_first_success (ok : Nat → Bool) (j : Nat) :
    ∀ a r, j < r → ok (a + j) = true → (∀ i, i < j → ok (a + i) = false) →
      wsConnectAux ok a r =
        (some (a + j), connFailTrace a j ++ [.connectAttempt (a + j)]) := by
  induction j with
  | zero =>
    intro a r hr hok _
    match r, hr with
    | r' + 1, _ =>
      simp only [Nat.add_zero] at hok
      simp [wsConnectAux, hok, connFailTrace]
  | succ j ih =>
    intro a r hr hok hfail
    match r, hr with
    | r' + 1, hr =>
      have h0 : ok a = false := by simpa using hfail 0 (Nat.succ_pos j)
      have hr0 : r' ≠ 0 := by omega
      have hok' : ok (a + 1 + j) = true := by
        rwa [show a + 1 + j = a + (j + 1) by omega]
      have hfail' : ∀ i, i < j → ok (a + 1 + i) = false := by
        intro i hi
        have := hfail (i + 1) (by omega)
        rwa [show a + (i + 1) = a + 1 + i by omega] at this
      have hrec := ih (a + 1) r' (by omega) hok' hfail'
      simp [wsConnectAux, h0, hr0, hrec, connFailTrace,
        show a + 1 + j = a + (j + 1) by omega]

theorem wsConnectAux_all_fail (ok : Nat → Bool) (r : Nat) :
    ∀ a, (∀ i, i < r + 1 → ok (a + i) = false) →
      wsConnectAux ok a (r + 1) =
        (none, connFailTrace a r ++ [.connectAttempt (a + r)]) := by
  induction r with
  | zero =>
    intro a hfail
    have h0 : ok a = false := by simpa using hfail 0 Nat.one_pos
    simp [wsConnectAux, h0, connFailTrace]
  | succ r ih =>
    intro a hfail
    have h0 : ok a = false := by simpa using hfail 0 (Nat.succ_pos _)
    have hrec := ih (a + 1) (fun i hi => by
      have := hfail (i + 1) (by omega)
      rwa [show a + (i + 1) = a + 1 + i by omega] at this)
    have step : wsConnectAux ok a (r + 1 + 1) =
        ((wsConnectAux ok (a + 1) (r + 1)).1,
          Action.connectAttempt a :: Action.sleep 5 ::
            (wsConnectAux ok (a + 1) (r + 1)).2) := by
      simp [wsConnectAux, h0]
    rw [step, hrec]
    simp [connFailTrace, show a + 1 + r = a + (r + 1) by omega]

theorem netQueue_not_mem_wsConnectAux (ok : Nat → Bool) :
    ∀ a r, Action.netQueue ∉ (wsConnectAux ok a r).2 := by
  intro a r
  induction r generalizing a with
  | zero => simp [wsConnectAux]
  | succ r ih =>
    by_cases h : ok a
    · simp [wsConnectAux, h]
    · by_cases hr : r = 0
      · simp [wsConnectAux, h, hr]
      · simp [wsConnectAux, h, hr, ih (a + 1)]

theorem netQueue_mem_get_videos (env : Env) (g : Graph) (cid : String) :
    Action.netQueue ∈ (get_videos env g cid).2 := by
  by_cases hq : env.queueOk
  · cases hr : recvLoop env.promptId env.events with
    | none => simp [get_videos, hq, hr]
    | some nr =>
      obtain ⟨n, r⟩ := nr
      cases hh : env.history env.promptId with
      | none => simp [get_videos, hq, hr, hh]
      | some h => simp [get_videos, hq, hr, hh]
  · simp [get_videos, hq]

theorem pollTaskAux_first_success {J : Type} (resp : Nat → Except String J)
    (j : Nat) : ∀ a r (v : J), j < r → resp (a + j) = .ok v →
      (∀ i, i < j → ∃ e, resp (a + i) = .error e) →
      pollTaskAux resp a r =
        (.ok v, pollFailTrace a j ++ [.pollRequest (a + j)]) := by
  induction j with
  | zero =>
    intro a r v hr hok _
    match r, hr with
    | r' + 1, _ =>
      simp only [Nat.add_zero] at hok
      simp [pollTaskAux, hok, pollFailTrace]
  | succ j ih =>
    intro a r v hr hok hfail
    match r, hr with
    | r' + 1, hr =>
      obtain ⟨e, h0⟩ := hfail 0 (Nat.succ_pos j)
      simp only [Nat.add_zero] at h0
      have hr0 : r' ≠ 0 := by omega
      have hok' : resp (a + 1 + j) = .ok v := by
        rwa [show a + 1 + j = a + (j + 1) by omega]
      have hfail' : ∀ i, i < j → ∃ e', resp (a + 1 + i) = .error e' := by
        intro i hi
        obtain ⟨e', he'⟩ := hfail (i + 1) (by omega)
        exact ⟨e', by rwa [show a + (i + 1) = a + 1 + i by omega] at he'⟩
      have hrec := ih (a + 1) r' v (by omega) hok' hfail'
      simp [pollTaskAux, h0, hr0, hrec, pollFailTrace,
        show a + 1 + j = a + (j + 1) by omega]

theorem pollTaskAux_all_fail {J : Type} (resp : Nat → Except String J)
    (r : Nat) : ∀ a (e : String), (∀ i, i < r + 1 → ∃ e', resp (a + i) = .error e') →
      resp (a + r) = .error e →
      pollTaskAux resp a (r + 1) =
        (.error e, pollFailTrace a r ++ [.pollRequest (a + r)]) := by
  induction r with
  | zero =>
    intro a e hfail hlast
    simp only [Nat.add_zero] at hlast
    simp [pollTaskAux, hlast, pollFailTrace]
  | succ r ih =>
    intro a e hfail hlast
    obtain ⟨e0, h0⟩ := hfail 0 (Nat.succ_pos _)
    simp only [Nat.add_zero] at h0
    have hlast' : resp (a + 1 + r) = .error e := by
      rwa [show a + 1 + r = a + (r + 1) by omega]
    have hrec := ih (a + 1) e (fun i hi => by
      obtain ⟨e', he'⟩ := hfail (i + 1) (by omega)
      exact ⟨e', by rwa [show a + (i + 1) = a + 1 + i by omega] at he'⟩) hlast'
    have step : pollTaskAux resp a (r + 1 + 1) =
        ((pollTaskAux resp (a + 1) (r + 1)).1,
          CAction.pollRequest a :: CAction.sleepC 2 ::
            (pollTaskAux resp (a + 1) (r + 1)).2) := by
      simp [pollTaskAux, h0]
    rw [step, hrec]
    simp [pollFailTrace, show a + 1 + r = a + (r + 1) by omega]

/-- C1: evaluation of the code at the failing scenario.  When the
polled status stream reaches the terminal value FAILED (and likewise
CANCELED), the client performs no artifact download, but the process
exit code is 0 rather than non-zero: the final else branch of main only
prints the failure message and returns, unlike every other failure path
of client_queue.py, which calls sys.exit(1). -/
theorem c1_terminal_failure_exits_zero :
    clientRun ["PENDING", "RUNNING", "FAILED"] ⟨[], true⟩ = some (0, false) ∧
    clientRun ["PENDING", "CANCELED"] ⟨[], true⟩ = some (0, false) :=
  ⟨rfl, rfl⟩

/-- C2 counterexample: a Job Request in which all three audio forms are
absent but whose image is supplied by url makes process_infinitetalk
download the image — a network call — before returning the structured
audio-required validation error, refuting the claim that for every
missing required media input the error precedes any network call. -/
theorem c2_counterexample :
    process_infinitetalk [("image_url", .str "http://host/a.jpg")] envBase =
      (.err audioRequiredMsg, [.netDownload "http://host/a.jpg"]) ∧
    Action.isNetwork (.netDownload "http://host/a.jpg") = true :=
  ⟨rfl, rfl⟩

/-- C2 (amended): a Job Request missing all three image forms fails
with the structured image-required error before any action at all, in
particular before any network call; a Job Request missing all three
audio forms fails with the structured audio-required error as soon as
the image input has been materialized, so its trace is exactly the
image-materialization trace, which may contain a network download. -/
theorem c2_missing_media_validation (inputs : List (String × Val))
    (env : Env) (htype : inputTypeOf inputs = .str "image") :
    (alistLookup inputs "image_path" = none →
      alistLookup inputs "image_url" = none →
      alistLookup inputs "image_base64" = none →
      process_infinitetalk inputs env = (.err imageRequiredMsg, [])) ∧
    (∀ form v p tr,
      alistLookup inputs "wav_path" = none →
      alistLookup inputs "wav_url" = none →
      alistLookup inputs "wav_base64" = none →
      selectSource inputs "image_path" "image_url" "image_base64" =
        some (form, v) →
      process_input env v "input_image.jpg" form = (.ok p, tr) →
      process_infinitetalk inputs env = (.err audioRequiredMsg, tr)) := by
  constructor
  · intro h1 h2 h3
    simp [process_infinitetalk, htype, processImage, selectSource, h1, h2, h3]
  · intro form v p tr h1 h2 h3 hsel hmat
    have hselw : selectSource inputs "wav_path" "wav_url" "wav_base64" = none := by
      simp [selectSource, h1, h2, h3]
    simp [process_infinitetalk, htype, processImage, hsel, hmat, hselw]

/-- C2 amended witness: the empty request fails image-required with an
empty trace, and a path-image request with no audio keys fails
audio-required with the empty materialization trace of a path input. -/
theorem c2_missing_media_validation_witness :
    process_infinitetalk [] envBase = (.err imageRequiredMsg, []) ∧
    process_infinitetalk [("image_path", .str "/img.jpg")] envBase =
      (.err audioRequiredMsg, []) := by
  constructor
  · exact (c2_missing_media_validation [] envBase rfl).1 rfl rfl rfl
  · exact (c2_missing_media_validation [("image_path", .str "/img.jpg")]
      envBase rfl).2 .path (.str "/img.jpg") "/img.jpg" [] rfl rfl rfl rfl rfl

/-- C4: when the request carries no max_frame key, the derived frame
count is floor(d * 25) + 81 whenever the audio duration d is
determinable (audio durations are non-negative, making the Python
toward-zero int conversion agree with floor), and the fixed default 81
whenever the duration cannot be determined. -/
theorem c4_frame_count_derivation (inputs : List (String × Val))
    (env : Env) (wav_path : String)
    (hnone : alistLookup inputs "max_frame" = none) :
    (∀ d : ℚ, env.audioDuration wav_path = some d → 0 ≤ d →
      deriveMaxFrame inputs env wav_path = .int (Int.floor (d * 25) + 81)) ∧
    (env.audioDuration wav_path = none →
      deriveMaxFrame inputs env wav_path = .int 81) := by
  constructor
  · intro d hd hd0
    have h25 : (0 : ℚ) ≤ d * 25 := by positivity
    simp [deriveMaxFrame, hnone, calculate_max_frames_from_audio,
      get_audio_duration, hd, pyTrunc_eq_floor_of_nonneg h25]
  · intro hd
    simp [deriveMaxFrame, hnone, calculate_max_frames_from_audio,
      get_audio_duration, hd]

/-- C4 witness at duration 5/2 (frame count 62 + 81 = 143) and at an
undeterminable duration (frame count 81). -/
theorem c4_frame_count_derivation_witness :
    deriveMaxFrame [] envDur "w.wav" = .int 143 ∧
    deriveMaxFrame [] envBase "w.wav" = .int 81 := by
  constructor
  · have h := (c4_frame_count_derivation [] envDur "w.wav" rfl).1
      ((5 : ℚ) / 2) rfl (by norm_num)
    rw [h]
    norm_num
  · exact (c4_frame_count_derivation [] envBase "w.wav" rfl).2 rfl

/-- C6: a present input_type other than image makes process_infinitetalk
return the unsupported-type error with an empty action trace, so no
input is materialized and the inference server is never contacted; an
absent input_type defaults to image and processing proceeds into the
media pipeline. -/
theorem c6_input_type_gate (inputs : List (String × Val)) (env : Env) :
    (∀ v, alistLookup inputs "input_type" = some v → v ≠ .str "image" →
      process_infinitetalk inputs env = (.err unsupportedTypeMsg, [])) ∧
    (alistLookup inputs "input_type" = none →
      inputTypeOf inputs = .str "image" ∧
      process_infinitetalk inputs env = processImage inputs env) := by
  constructor
  · intro v hv hne
    have ht : inputTypeOf inputs = v := by simp [inputTypeOf, hv]
    simp [process_infinitetalk, ht, hne]
  · intro h
    have ht : inputTypeOf inputs = .str "image" := by simp [inputTypeOf, h]
    exact ⟨ht, by simp [process_infinitetalk, ht]⟩

/-- C6 witness: input_type video (as the client v2v mode submits) is
rejected with an empty trace even when media is present; a request
without input_type proceeds into the media pipeline. -/
theorem c6_input_type_gate_witness :
    process_infinitetalk
      [("input_type", .str "video"), ("video_url", .str "http://h/v.mp4"),
       ("wav_url", .str "http://h/a.wav")] envBase =
      (.err unsupportedTypeMsg, []) ∧
    process_infinitetalk [("image_path", .str "/img.jpg")] envBase =
      processImage [("image_path", .str "/img.jpg")] envBase := by
  constructor
  · exact (c6_input_type_gate _ envBase).1 (.str "video") rfl (by decide)
  · exact ((c6_input_type_gate [("image_path", .str "/img.jpg")] envBase).2
      rfl).2

/-- C3: the read loop of get_videos terminates exactly at the first
string frame of type executing with node null and the submitted job id,
ignoring every non-string frame, every frame of another message type
and every null-node executing frame of a non-matching job id; only
after that terminating frame does get_videos fetch the execution
history, as the netHistory action follows the wsRecv actions of exactly
the consumed frames. -/
theorem c3_monitor_read_loop (pid : String) (pre post : List WsMsg)
    (m : WsMsg) (hpre : ∀ x ∈ pre, isDoneMsg pid x = false)
    (hm : isDoneMsg pid m = true) :
    recvLoop pid (pre ++ m :: post) = some (pre.length + 1, post) ∧
    (∀ env (g : Graph) (cid : String) h,
      env.queueOk = true → env.promptId = pid →
      env.events = pre ++ m :: post → env.history pid = some h →
      get_videos env g cid =
        (.ok (collectVideos env h),
          .netQueue ::
            (List.replicate (pre.length + 1) .wsRecv ++ [.netHistory]))) := by
  have hloop := recvLoop_break_at_first pid pre post m hpre hm
  refine ⟨hloop, ?_⟩
  intro env g cid h hq hpid hev hh
  simp [get_videos, hq, hpid, hev, hloop, hh]

/-- C3 witness on a concrete six-frame stream for job p1: a binary
frame, a status frame, a non-null-node executing frame and a null-node
executing frame of job p2 are all ignored; the loop stops at the fifth
frame, leaving the sixth unread, and get_videos fetches the history
after exactly five receives. -/
theorem c3_monitor_read_loop_witness :
    recvLoop "p1"
      [.binary, .text "status" none "p1", .text "executing" (some "5") "p1",
       .text "executing" none "p2", .text "executing" none "p1",
       .text "executing" none "p1"] =
      some (5, [.text "executing" none "p1"]) ∧
    get_videos envEvents [] "cid" =
      (.ok (collectVideos envEvents
          [("3", ⟨none⟩), ("8", ⟨some ["/out/v1.mp4", "/out/v2.mp4"]⟩)]),
        .netQueue :: (List.replicate 5 .wsRecv ++ [.netHistory])) := by
  have h := c3_monitor_read_loop "p1"
    [.binary, .text "status" none "p1", .text "executing" (some "5") "p1",
     .text "executing" none "p2"]
    [.text "executing" none "p1"] (.text "executing" none "p1")
    (by decide) (by decide)
  exact ⟨h.1, h.2 envEvents [] "cid" _ rfl rfl rfl rfl⟩

/-- C5: sampler-node selection is deterministic: whenever the node with
the preferred identifier 128 carries the class WanVideoSampler it is
selected in every iteration order of the same mapping; otherwise the
first node in iteration order with that class is selected; and when no
node matches, the graph is left unchanged — the offload flag is not
injected — and the pipeline continues, the source only logging a
non-fatal warning. -/
theorem c5_sampler_selection (g g' : Graph) (n : Node) (v : Val) :
    ((alistKeys g).Nodup → g.Perm g' → alistLookup g "128" = some n →
      n.class_type = some "WanVideoSampler" →
      findSampler g = some "128" ∧ findSampler g' = some "128") ∧
    (∀ pre rest nid nd, g = pre ++ (nid, nd) :: rest →
      (∀ x ∈ pre, x.2.class_type ≠ some "WanVideoSampler") →
      nd.class_type = some "WanVideoSampler" →
      (∀ n128, alistLookup g "128" = some n128 →
        n128.class_type ≠ some "WanVideoSampler") →
      findSampler g = some nid) ∧
    (findSampler g = none → injectForceOffload g v = g) := by
  refine ⟨?_, ?_, ?_⟩
  · intro hnd hp h128 hcls
    have h128' : alistLookup g' "128" = some n := by
      rw [← alistLookup_perm hp hnd]
      exact h128
    constructor
    · simp [findSampler, h128, hcls]
    · simp [findSampler, h128', hcls]
  · intro pre rest nid nd hg hpre hnd h128
    have hfb : findSamplerFallback g = some nid := by
      rw [hg]
      exact findSamplerFallback_first pre rest nid nd hpre hnd
    cases hl : alistLookup g "128" with
    | none => simp [findSampler, hl, hfb]
    | some n128 =>
      have hn := h128 n128 hl
      simp [findSampler, hl, hn, hfb]
  · intro hnone
    simp [injectForceOffload, hnone]

/-- C5 witness: both iteration orders of a two-sampler graph select the
preferred identifier 128; without a node 128 the first sampler in
iteration order is selected; and a graph with no sampler at all is left
unchanged by the injection. -/
theorem c5_sampler_selection_witness :
    findSampler [("1", ⟨some "WanVideoSampler", some []⟩),
      ("128", ⟨some "WanVideoSampler", some []⟩)] = some "128" ∧
    findSampler [("128", ⟨some "WanVideoSampler", some []⟩),
      ("1", ⟨some "WanVideoSampler", some []⟩)] = some "128" ∧
    findSampler [("7", ⟨some "Other", some []⟩),
      ("9", ⟨some "WanVideoSampler", some []⟩)] = some "9" ∧
    injectForceOffload [("7", ⟨some "Other", some []⟩)] (.bool true) =
      [("7", ⟨some "Other", some []⟩)] := by
  have h1 := (c5_sampler_selection
    [("1", ⟨some "WanVideoSampler", some []⟩),
     ("128", ⟨some "WanVideoSampler", some []⟩)]
    [("128", ⟨some "WanVideoSampler", some []⟩),
     ("1", ⟨some "WanVideoSampler", some []⟩)]
    ⟨some "WanVideoSampler", some []⟩ (.bool true)).1
    (by decide) (List.Perm.swap _ _ _) rfl rfl
  have h2 := (c5_sampler_selection
    [("7", ⟨some "Other", some []⟩), ("9", ⟨some "WanVideoSampler", some []⟩)]
    [] ⟨some "Other", some []⟩ (.bool true)).2.1
    [("7", ⟨some "Other", some []⟩)] [] "9"
    ⟨some "WanVideoSampler", some []⟩ rfl (by decide) rfl
    (fun n128 hn => by simp [alistLookup] at hn)
  have h3 := (c5_sampler_selection [("7", ⟨some "Other", some []⟩)]
    [] ⟨some "Other", some []⟩ (.bool true)).2.2 rfl
  exact ⟨h1.1, h1.2, h2, h3⟩

/-- C7: after completion the artifact references are collected per node
in history iteration order, keeping only references whose file exists
at read time; the result artifact is the first element of the first
node whose collected list is non-empty (returned as the success value
when encoding succeeds), and when every node collects an empty list the
operation returns the distinct no-output error rather than an execution
failure.  The hypothesis records that the empty path never exists on
disk, as with os.path.exists. -/
theorem c7_artifact_selection (env : Env) (h : List (String × NodeOut))
    (hempty : env.fileExists "" = false) :
    collectVideos env h =
      h.map (fun p => (p.1, (p.2.gifs.getD []).filter env.fileExists)) ∧
    (∀ v, pickOutputVideo (collectVideos env h) = some v →
      env.encodeOk v = true →
      finishVideos env (collectVideos env h) = .ok v) ∧
    ((∀ p ∈ collectVideos env h, p.2 = []) →
      finishVideos env (collectVideos env h) =
        .err "No output video found") ∧
    pickOutputVideo (collectVideos env h) =
      ((collectVideos env h).find? (fun p => !p.2.isEmpty)).bind
        (fun p => p.2.head?) := by
  refine ⟨collectVideos_eq_map env h, ?_, ?_, pickOutputVideo_eq_find _⟩
  · intro v hv henc
    obtain ⟨p, hp, hvel⟩ := pickOutputVideo_mem _ v hv
    have hex : env.fileExists v = true :=
      fileExists_of_mem_collect env h hp hvel
    have hne : v ≠ "" := by
      intro he
      rw [he, hempty] at hex
      exact Bool.noConfusion hex
    simp [finishVideos, hv, hne, hex, henc]
  · intro hall
    have hn := pickOutputVideo_eq_none _ hall
    simp [finishVideos, hn]

/-- C7 witness: in a history whose earlier nodes reference only missing
files, the selected artifact is the first existing reference of the
first non-empty collected list; a history with only missing files
yields the no-output error. -/
theorem c7_artifact_selection_witness :
    finishVideos envFiles (collectVideos envFiles
      [("3", ⟨none⟩), ("5", ⟨some ["/out/v1.mp4"]⟩),
       ("8", ⟨some ["/out/v1.mp4", "/out/v2.mp4"]⟩),
       ("9", ⟨some ["/out/v2.mp4"]⟩)]) = .ok "/out/v2.mp4" ∧
    finishVideos envFiles (collectVideos envFiles
      [("5", ⟨some ["/out/v1.mp4"]⟩)]) = .err "No output video found" := by
  constructor
  · exact (c7_artifact_selection envFiles
      [("3", ⟨none⟩), ("5", ⟨some ["/out/v1.mp4"]⟩),
       ("8", ⟨some ["/out/v1.mp4", "/out/v2.mp4"]⟩),
       ("9", ⟨some ["/out/v2.mp4"]⟩)] rfl).2.1 "/out/v2.mp4" rfl rfl
  · exact (c7_artifact_selection envFiles
      [("5", ⟨some ["/out/v1.mp4"]⟩)] rfl).2.2.1 (by decide)

/-- C8: when more than one form of the same media kind is supplied, the
selection follows the fixed priority path then url then base64, for
both the image and the audio chains, and the pick is invariant under
permuting the request mapping, whose keys are distinct as in any
Python dict. -/
theorem c8_media_priority (inputs : List (String × Val)) :
    (∀ inputs', inputs.Perm inputs' → (alistKeys inputs).Nodup →
      selectSource inputs "image_path" "image_url" "image_base64" =
        selectSource inputs' "image_path" "image_url" "image_base64" ∧
      selectSource inputs "wav_path" "wav_url" "wav_base64" =
        selectSource inputs' "wav_path" "wav_url" "wav_base64") ∧
    (∀ pk uk bk v, alistLookup inputs pk = some v →
      selectSource inputs pk uk bk = some (.path, v)) ∧
    (∀ pk uk bk v, alistLookup inputs pk = none →
      alistLookup inputs uk = some v →
      selectSource inputs pk uk bk = some (.url, v)) ∧
    (∀ pk uk bk v, alistLookup inputs pk = none →
      alistLookup inputs uk = none →
      alistLookup inputs bk = some v →
      selectSource inputs pk uk bk = some (.base64, v)) := by
  refine ⟨?_, ?_, ?_, ?_⟩
  · intro inputs' hp hnd
    constructor <;> simp only [selectSource, alistLookup_perm hp hnd]
  · intro pk uk bk v h
    simp [selectSource, h]
  · intro pk uk bk v h1 h2
    simp [selectSource, h1, h2]
  · intro pk uk bk v h1 h2 h3
    simp [selectSource, h1, h2, h3]

/-- C8 witness: a request supplying every image form and the url and
base64 audio forms picks the path form for the image and the url form
for the audio, and the reversed mapping picks exactly the same. -/
theorem c8_media_priority_witness :
    selectSource
      [("image_path", .str "P"), ("image_url", .str "U"),
       ("image_base64", .str "B"), ("wav_url", .str "WU"),
       ("wav_base64", .str "WB")] "image_path" "image_url" "image_base64" =
      some (.path, .str "P") ∧
    selectSource
      [("wav_base64", .str "WB"), ("wav_url", .str "WU"),
       ("image_base64", .str "B"), ("image_url", .str "U"),
       ("image_path", .str "P")] "image_path" "image_url" "image_base64" =
      some (.path, .str "P") ∧
    selectSource
      [("image_path", .str "P"), ("image_url", .str "U"),
       ("image_base64", .str "B"), ("wav_url", .str "WU"),
       ("wav_base64", .str "WB")] "wav_path" "wav_url" "wav_base64" =
      some (.url, .str "WU") := by
  have hpick := (c8_media_priority
    [("image_path", .str "P"), ("image_url", .str "U"),
     ("image_base64", .str "B"), ("wav_url", .str "WU"),
     ("wav_base64", .str "WB")]).2.1 "image_path" "image_url" "image_base64"
    (.str "P") rfl
  have hperm := (c8_media_priority
    [("image_path", .str "P"), ("image_url", .str "U"),
     ("image_base64", .str "B"), ("wav_url", .str "WU"),
     ("wav_base64", .str "WB")]).1
    [("wav_base64", .str "WB"), ("wav_url", .str "WU"),
     ("image_base64", .str "B"), ("image_url", .str "U"),
     ("image_path", .str "P")]
    (by decide) (by decide)
  have hwav := (c8_media_priority
    [("image_path", .str "P"), ("image_url", .str "U"),
     ("image_base64", .str "B"), ("wav_url", .str "WU"),
     ("wav_base64", .str "WB")]).2.2.1 "wav_path" "wav_url" "wav_base64"
    (.str "WU") rfl rfl
  exact ⟨hpick, hperm.1.symm.trans hpick, hwav⟩

theorem wsConnectAux_none_all_fail (ok : Nat → Bool) :
    ∀ a r, (wsConnectAux ok a r).1 = none → ∀ i, i < r → ok (a + i) = false := by
  intro a r
  induction r generalizing a with
  | zero =>
    intro _ i hi
    omega
  | succ r ih =>
    intro hnone i hi
    by_cases h : ok a
    · simp [wsConnectAux, h] at hnone
    · by_cases hr : r = 0
      · subst hr
        have hi0 : i = 0 := by omega
        subst hi0
        simpa using h
      · cases i with
        | zero => simpa using h
        | succ i' =>
          have h1 : (wsConnectAux ok (a + 1) r).1 = none := by
            simpa [wsConnectAux, h, hr] using hnone
          have := ih (a + 1) h1 i' (by omega)
          rwa [show a + 1 + i' = a + (i' + 1) by omega] at this

/-- C9 counterexample: with every connection attempt refused, the retry
loop sleeps 5 seconds between attempts and never 1 second, refuting the
claimed once-per-second cadence; the loop performs 36 attempts (71
trace entries: 36 attempts with 35 backoffs), not the roughly 180 a
once-per-second schedule over 3 minutes would give, before reporting
the timeout. -/
theorem c9_counterexample :
    (wsConnectLoop (fun _ => false) 36).1 = none ∧
    Action.sleep 5 ∈ (wsConnectLoop (fun _ => false) 36).2 ∧
    Action.sleep 1 ∉ (wsConnectLoop (fun _ => false) 36).2 ∧
    (wsConnectLoop (fun _ => false) 36).2.length = 71 := by
  refine ⟨rfl, by decide, by decide, rfl⟩

/-- C9 (amended): realtime connection establishment is retried with a
fixed 5 second backoff for up to 36 attempts (3 minutes, per the source
comment); the first successful attempt below the ceiling stops the loop
and the monitor proceeds to execute the workflow, queueing the prompt;
only when all 36 attempts fail does the handler return the
connect-timeout error, never having queued the prompt. -/
theorem c9_connect_retry (ok : Nat → Bool) (env : Env) (g : Graph) :
    (∀ j, j < 36 → ok j = true → (∀ i, i < j → ok i = false) →
      wsConnectLoop ok 36 =
        (some j, connFailTrace 0 j ++ [.connectAttempt j])) ∧
    ((∀ i, i < 36 → ok i = false) →
      wsConnectLoop ok 36 =
        (none, connFailTrace 0 35 ++ [.connectAttempt 35])) ∧
    (env.connectOk = ok → (∃ j, j < 36 ∧ ok j = true) →
      Action.netQueue ∈ (runWorkflow env g).2) ∧
    (env.connectOk = ok → (∀ i, i < 36 → ok i = false) →
      runWorkflow env g =
        (.err connectTimeoutMsg,
          connFailTrace 0 35 ++ [.connectAttempt 35]) ∧
      Action.netQueue ∉ (runWorkflow env g).2) := by
  have hAllFail : (∀ i, i < 36 → ok i = false) →
      wsConnectLoop ok 36 =
        (none, connFailTrace 0 35 ++ [.connectAttempt 35]) := by
    intro hfail
    have := wsConnectAux_all_fail ok 35 0 (fun i hi => by
      simpa using hfail i (by omega))
    simpa [wsConnectLoop] using this
  refine ⟨?_, hAllFail, ?_, ?_⟩
  · intro j hj hok hfail
    have := wsConnectAux_first_success ok j 0 36 hj (by simpa using hok)
      (fun i hi => by simpa using hfail i hi)
    simpa [wsConnectLoop] using this
  · intro hco hex
    obtain ⟨j, hj, hok⟩ := hex
    cases hc : (wsConnectLoop env.connectOk 36).1 with
    | none =>
      have hall := wsConnectAux_none_all_fail env.connectOk 0 36 hc j hj
      rw [hco] at hall
      simp [hok] at hall
    | some k =>
      cases hgv : (get_videos env g env.clientId).1 with
      | error r =>
        simp only [runWorkflow, hc, hgv, List.mem_append]
        exact Or.inr (netQueue_mem_get_videos env g env.clientId)
      | ok videos =>
        simp only [runWorkflow, hc, hgv, List.mem_append]
        exact Or.inr (netQueue_mem_get_videos env g env.clientId)
  · intro hco hfail
    have hc : wsConnectLoop env.connectOk 36 =
        (none, connFailTrace 0 35 ++ [.connectAttempt 35]) := by
      rw [hco]
      exact hAllFail hfail
    have hnm := netQueue_not_mem_wsConnectAux env.connectOk 0 36
    rw [show wsConnectAux env.connectOk 0 36 =
      wsConnectLoop env.connectOk 36 from rfl, hc] at hnm
    constructor
    · simp [runWorkflow, hc]
    · simp only [runWorkflow, hc]
      simpa using hnm

/-- C9 witness: a success on the third attempt after two refusals stops
the loop there, and with every attempt refused in envBase the handler
returns the connect-timeout error without queueing the prompt. -/
theorem c9_connect_retry_witness :
    wsConnectLoop (fun i => i == 2) 36 =
      (some 2, connFailTrace 0 2 ++ [.connectAttempt 2]) ∧
    runWorkflow envBase [] =
      (.err connectTimeoutMsg,
        connFailTrace 0 35 ++ [.connectAttempt 35]) ∧
    Action.netQueue ∉ (runWorkflow envBase []).2 ∧
    Action.netQueue ∈ (runWorkflow envEvents []).2 := by
  have h1 := (c9_connect_retry (fun i => i == 2) envBase []).1 2 (by omega)
    rfl (fun i hi => by
      have : i ≠ 2 := by omega
      simp [this])
  have h4 := (c9_connect_retry envBase.connectOk envBase []).2.2.2 rfl
    (fun i _ => rfl)
  have h3 := (c9_connect_retry envEvents.connectOk envEvents []).2.2.1 rfl
    ⟨2, by omega, rfl⟩
  exact ⟨h1, h4.1, h4.2, h3⟩

/-- C10: each status poll retries per-request errors up to 5 attempts
with a fixed 2 second backoff between attempts, returns the parsed
status record on the first successful attempt, and propagates the last
error as a hard failure only after all 5 attempts are exhausted. -/
theorem c10_poll_retry {J : Type} (resp : Nat → Except String J) :
    (∀ j v, j < 5 → resp j = .ok v →
      (∀ i, i < j → ∃ e, resp i = .error e) →
      poll_task resp = (.ok v, pollFailTrace 0 j ++ [.pollRequest j])) ∧
    (∀ e, (∀ i, i < 5 → ∃ e', resp i = .error e') → resp 4 = .error e →
      poll_task resp =
        (.error e, pollFailTrace 0 4 ++ [.pollRequest 4])) := by
  constructor
  · intro j v hj hok hfail
    have := pollTaskAux_first_success resp j 0 5 v hj (by simpa using hok)
      (fun i hi => by simpa using hfail i hi)
    simpa [poll_task] using this
  · intro e hfail hlast
    have := pollTaskAux_all_fail resp 4 0 e
      (fun i hi => by simpa using hfail i hi) (by simpa using hlast)
    simpa [poll_task] using this

/-- C10 witness: a poll succeeding on the third attempt returns its
record after two backoffs, and a poll refused five times propagates the
last error after the full trace of five requests and four backoffs. -/
theorem c10_poll_retry_witness :
    poll_task (fun i => if i = 2 then (.ok 7 : Except String Nat)
        else .error "boom") =
      (.ok 7, pollFailTrace 0 2 ++ [.pollRequest 2]) ∧
    poll_task (fun _ => (.error "refused" : Except String Nat)) =
      (.error "refused", pollFailTrace 0 4 ++ [.pollRequest 4]) := by
  constructor
  · exact (c10_poll_retry (fun i => if i = 2 then (.ok 7 : Except String Nat)
      else .error "boom")).1 2 7 (by omega) rfl
      (fun i hi => ⟨"boom", by rw [if_neg (by omega)]⟩)
  · exact (c10_poll_retry (fun _ => (.error "refused" : Except String Nat))).2
      "refused" (fun i _ => ⟨"refused", rfl⟩) rfl

end InfiniteTalk
